import Mathlib

/-!
Shallow embedding of the metric-reduction engine of the Ro-Shipsy repository.

Sources embedded here:
* `src/components/AnalysisPage.tsx` — `formatHoursToHHMM`, `fetchScenarioData`,
  `executeSearch`, `bestMetrics`, the `MOCK_RESPONSE_DATA` fallback constant and
  the "best badge" rendering conditions;
* `src/unnamed/part_000` (the OutputDashboard component) — `parseCSV` and
  `scenarioMetrics`.

Modeling conventions:
* JavaScript numbers are modeled as `ℚ`; `NaN` is modeled as `Option.none`
  where the source tests for it explicitly.
* JavaScript objects used as string-keyed maps are modeled as ordered
  association lists; assignment order is preserved and lookup takes the most
  recent binding, matching object-key overwrite semantics.
* `x || d` on strings (falsy = empty string) and numbers (falsy = 0) is
  modeled by `jsOrStr` / `jsOrQ`; an absent string property reads as `""`.
* `Array.prototype.sort` with a comparator is modeled as a stable insertion
  sort with the strict "comes before" relation derived from the comparator.
-/

/-- JS `a || b` for strings: `""` (and an absent property, which we read as
`""`) is falsy. -/
def jsOrStr (a b : String) : String :=
  if a = "" then b else a

/-- JS `a || b` for numbers: `0` is falsy (`NaN`, also falsy, is handled
separately where the source can produce it). -/
def jsOrQ (a b : ℚ) : ℚ :=
  if a = 0 then b else a

/-- JS `String.prototype.trim`, on character lists: strip leading and trailing
whitespace. -/
def trimChars (l : List Char) : List Char :=
  ((l.dropWhile Char.isWhitespace).reverse.dropWhile Char.isWhitespace).reverse

/-- JS `String.prototype.toLowerCase` (ASCII range, which is all the source
compares). -/
def lowerStr (s : String) : String :=
  String.mk (s.data.map Char.toLower)

/-- JS `String.prototype.includes needle`: `needle` occurs as a contiguous
substring. -/
def hasSub (needle : List Char) : List Char → Bool
  | [] => needle.isEmpty
  | c :: rest => needle.isPrefixOf (c :: rest) || hasSub needle rest

/-- Numeric value of a list of decimal digit characters (most significant
first). -/
def digitsToNat (ds : List Char) : ℕ :=
  ds.foldl (fun acc c => acc * 10 + (c.toNat - '0'.toNat)) 0

/-- JS `parseFloat` restricted to strings over the alphabet `0-9 . -` (all the
source ever parses, because it strips every other character first): an
optional leading minus sign, then integer digits, then optionally a dot and
fraction digits; parsing stops at the first character that does not fit, and
at least one digit must have been consumed (`none` models `NaN`). -/
def parseUnsignedFloat (cs : List Char) : Option ℚ :=
  let intDs := cs.takeWhile Char.isDigit
  match cs.dropWhile Char.isDigit with
  | '.' :: rest =>
    let fracDs := rest.takeWhile Char.isDigit
    if intDs.isEmpty && fracDs.isEmpty then none
    else some ((digitsToNat intDs : ℚ) + (digitsToNat fracDs : ℚ) / (10 : ℚ) ^ fracDs.length)
  | _ => if intDs.isEmpty then none else some (digitsToNat intDs : ℚ)

/-- JS `parseFloat` on a stripped numeric string, with the optional sign. -/
def jsParseFloat (cs : List Char) : Option ℚ :=
  match cs with
  | '-' :: rest => (parseUnsignedFloat rest).map (fun q => -q)
  | _ => parseUnsignedFloat cs

/-- `.replace(/[^0-9.-]+/g, "")` from the aggregator: keep only digits, `.`
and `-`. -/
def stripNonNumeric (s : String) : List Char :=
  s.data.filter (fun c => c.isDigit || c = '.' || c = '-')

/-- Left-pad a string with zeros to the given length. -/
def padZeros (width : ℕ) (s : String) : String :=
  String.mk (List.replicate (width - s.length) '0') ++ s

/-- JS `Number.prototype.toFixed digits` on an exact rational: round
`x·10^digits` to the nearest integer (ties away from zero toward +∞, i.e.
`⌊y + 1/2⌋`, matching the ECMAScript "pick the larger n" rule) and print with
exactly `digits` fraction digits. -/
def jsToFixed (digits : ℕ) (x : ℚ) : String :=
  let n : ℤ := round (x * (10 : ℚ) ^ digits)
  let sign := if n < 0 then "-" else ""
  let m := n.natAbs
  if digits = 0 then sign ++ toString m
  else sign ++ toString (m / 10 ^ digits) ++ "." ++ padZeros digits (toString (m % 10 ^ digits))

/-- JS `text.split("\n")` on character lists; the second argument is the
accumulator for the current segment. -/
def splitOnNewline : List Char → List Char → List (List Char)
  | [], cur => [cur]
  | c :: rest, cur =>
    if c = '\n' then cur :: splitOnNewline rest []
    else splitOnNewline rest (cur ++ [c])

/-- The character-scanning field splitter inside `parseCSV`'s `parseLine`
(src/unnamed/part_000, lines 47-63): a double quote toggles the quoted state
and is not emitted; a comma outside quotes terminates the current field; every
field is trimmed as it is pushed. -/
def splitFields : List Char → List Char → Bool → List (List Char)
  | [], current, _ => [trimChars current]
  | c :: rest, current, inQuotes =>
    if c = '"' then splitFields rest current (!inQuotes)
    else if c = ',' && !inQuotes then trimChars current :: splitFields rest [] inQuotes
    else splitFields rest (current ++ [c]) inQuotes

/-- `^"` / `"$` quote stripping (`val.replace(/^\x22|\x22$/g, "")`): remove one
leading and one trailing double quote if present. -/
def stripOuterQuotes (l : List Char) : List Char :=
  let l1 := match l with
    | '"' :: rest => rest
    | other => other
  if l1.getLast? = some '"' then l1.dropLast else l1

/-- `parseLine` from `parseCSV` (src/unnamed/part_000, lines 47-65): split a
physical line into field values, then strip outer quotes and trim each
value. -/
def parseLine (line : List Char) : List String :=
  (splitFields line [] false).map (fun v => String.mk (trimChars (stripOuterQuotes v)))

/-- The surviving lines of the tabular input: split on line feed and drop the
lines that are empty after trimming (`lines.filter(l => l.trim())`). -/
def survivingLines (text : String) : List (List Char) :=
  (splitOnNewline text.data []).filter (fun l => !(trimChars l).isEmpty)

/-- A `SheetRow` (a JS object keyed by header name), as an ordered association
list written in header order; duplicate keys shadow earlier ones on lookup. -/
abbrev SheetRow := List (String × String)

/-- `headers.forEach((h, i) => row[h] = values[i] || "")`: the record for one
data line — one binding per declared header, in header order, taking the
value at the same index or the empty string. -/
def buildRow : List String → List String → SheetRow
  | [], _ => []
  | h :: hs, vs => (h, vs.headD "") :: buildRow hs vs.tail

/-- Property read `row[k]` on a `SheetRow`: the most recent binding of `k`, or
`""` when the key is absent (JS `undefined`, which the source only ever feeds
into `||` chains where it behaves like `""`). -/
def rowGet (r : SheetRow) (k : String) : String :=
  match r.reverse.find? (fun p => p.1 == k) with
  | some p => p.2
  | none => ""

/-- Result shape of `parseCSV`. -/
structure ParsedCSV where
  headers : List String
  rows : List SheetRow
deriving Repr

/-- `parseCSV` (src/unnamed/part_000, lines 42-78): surviving lines; first one
declares the field names, every later one becomes one record. -/
def parseCSV (text : String) : ParsedCSV :=
  match survivingLines text with
  | [] => ⟨[], []⟩
  | first :: rest =>
    let headers := parseLine first
    ⟨headers, rest.map (fun line => buildRow headers (parseLine line))⟩

/-- Per-vehicle accumulator of the aggregator (`{ distance: 0, stops: 0 }`). -/
structure VehicleStat where
  distance : ℚ
  stops : ℕ
deriving Repr, DecidableEq

/-- One accumulation step into a vehicle's stat: add the parsed distance when
it parsed (`if (!isNaN(dist))`) and bump the stop count when the row
qualified. -/
def addToStat (st : VehicleStat) (dist : Option ℚ) (isStop : Bool) : VehicleStat :=
  { distance := st.distance + dist.getD 0
    stops := st.stops + (if isStop then 1 else 0) }

/-- Insertion-ordered upsert into the `vehicles` object
(`if (!vehicles[vCode]) vehicles[vCode] = {distance: 0, stops: 0}` followed by
the accumulation). -/
def upsertVehicle : List (String × VehicleStat) → String → Option ℚ → Bool → List (String × VehicleStat)
  | [], vCode, dist, isStop => [(vCode, addToStat ⟨0, 0⟩ dist isStop)]
  | (k, st) :: rest, vCode, dist, isStop =>
    if k = vCode then (k, addToStat st dist isStop) :: rest
    else (k, st) :: upsertVehicle rest vCode dist isStop

/-- The vehicle-identifying field of a row:
`r["vehicle_code"] || r["Vehicle_Code"]`; `""` models a missing identifier. -/
def vehicleKey (r : SheetRow) : String :=
  jsOrStr (rowGet r "vehicle_code") (rowGet r "Vehicle_Code")

/-- Row qualifies as a stop when the lower-cased type field contains
"delivery", "pickup" or "visit" as a substring. -/
def isQualifyingStop (r : SheetRow) : Bool :=
  let ty := (lowerStr (jsOrStr (rowGet r "type") (rowGet r "Type"))).data
  hasSub "delivery".data ty || hasSub "pickup".data ty || hasSub "visit".data ty

/-- The distance contributed by a row: strip every character that is not a
digit, `.` or `-` from the distance field (defaulting to `"0"`), then
`parseFloat`; `none` models `NaN` and contributes nothing. -/
def rowDistance (r : SheetRow) : Option ℚ :=
  jsParseFloat (stripNonNumeric
    (jsOrStr (rowGet r "travel_distance_km") (jsOrStr (rowGet r "Travel_Distance_Km") "0")))

/-- One row of the per-vehicle grouping loop (src/unnamed/part_000, lines
141-157): rows without a vehicle identifier are skipped entirely. -/
def updateVehicles (vs : List (String × VehicleStat)) (r : SheetRow) : List (String × VehicleStat) :=
  let vCode := vehicleKey r
  if vCode = "" then vs
  else upsertVehicle vs vCode (rowDistance r) (isQualifyingStop r)

/-- The per-vehicle stats of one scenario group, in first-seen vehicle
order. -/
def vehicleStats (rows : List SheetRow) : List (String × VehicleStat) :=
  rows.foldl updateVehicles []

/-- The scenario-identifying field of a row:
`row["request_id"] || row["Request_Id"] || "Unknown"`. -/
def scenarioKey (r : SheetRow) : String :=
  jsOrStr (rowGet r "request_id") (jsOrStr (rowGet r "Request_Id") "Unknown")

/-- Append a row to its scenario group, creating the group at the end on
first sight (JS object insertion order). -/
def pushGroup : List (String × List SheetRow) → String → SheetRow → List (String × List SheetRow)
  | [], k, r => [(k, [r])]
  | (k', rs) :: rest, k, r =>
    if k' = k then (k', rs ++ [r]) :: rest
    else (k', rs) :: pushGroup rest k r

/-- Grouping of the tabular records by scenario id (src/unnamed/part_000,
lines 123-131). -/
def groupScenarios (data : List SheetRow) : List (String × List SheetRow) :=
  data.foldl (fun acc r => pushGroup acc (scenarioKey r) r) []

/-- `ScenarioMetrics` from src/unnamed/part_000. -/
structure ScenarioMetrics where
  id : String
  hub : String
  totalVehicles : ℕ
  totalTrips : ℕ
  avgStops : String
  avgDistance : String
  isCurrent : Bool
deriving Repr, DecidableEq

/-- The per-scenario computation of `scenarioMetrics` (src/unnamed/part_000,
lines 134-183): per-vehicle stats, then the arithmetic means over identified
vehicles, displayed with `toFixed(1)` / `toFixed(2)`, or the literal string
`"0"` when the scenario has no identified vehicle. -/
def mkScenarioMetrics (currentScenarioName : Option String) (id : String) (rows : List SheetRow) : ScenarioMetrics :=
  let hub := jsOrStr (rowGet (rows.headD []) "hub_code")
    (jsOrStr (rowGet (rows.headD []) "Hub_Code") "N/A")
  let vs := vehicleStats rows
  let totalVehicles := vs.length
  let totalStopsAll : ℕ := (vs.map (fun p => p.2.stops)).sum
  let totalDistAll : ℚ := (vs.map (fun p => p.2.distance)).sum
  { id := id
    hub := hub
    totalVehicles := totalVehicles
    totalTrips := totalVehicles
    avgStops := if 0 < totalVehicles then jsToFixed 1 ((totalStopsAll : ℚ) / totalVehicles) else "0"
    avgDistance := if 0 < totalVehicles then jsToFixed 2 (totalDistAll / totalVehicles) else "0"
    isCurrent := match currentScenarioName with
      | none => false
      | some cur => if cur = "" then false else lowerStr id == lowerStr cur }

/-- Stable insertion sort: `lt x y` means the comparator orders `x` strictly
before `y`; ties keep input order, as the JS engine's stable
`Array.prototype.sort` does. -/
def insertOrdered (lt : α → α → Bool) (x : α) : List α → List α
  | [] => [x]
  | y :: rest => if lt x y then x :: y :: rest else y :: insertOrdered lt x rest

/-- Stable sort by repeated ordered insertion, scanning the input left to
right. -/
def stableSortBy (lt : α → α → Bool) (l : List α) : List α :=
  l.foldl (fun acc x => insertOrdered lt x acc) []

/-- `scenarioMetrics` (src/unnamed/part_000, lines 119-191): `null` when the
sheet data is empty, otherwise the per-scenario metrics with the current
scenario sorted to the front (the comparator
`if (a.isCurrent) return -1; if (b.isCurrent) return 1; return 0` orders `a`
strictly before `b` exactly when `a` is current and `b` is not, up to the
stability of the engine sort). -/
def scenarioMetrics (data : List SheetRow) (currentScenarioName : Option String) :
    Option (List ScenarioMetrics) :=
  if data.isEmpty then none
  else some (stableSortBy (fun a b => a.isCurrent && !b.isCurrent)
    ((groupScenarios data).map (fun g => mkScenarioMetrics currentScenarioName g.1 g.2)))

/-- `DropBreakupItem` from src/components/AnalysisPage.tsx. -/
structure DropBreakupItem where
  reason_code : String
  reason_label : String
  dropped_count : ℚ
  pct_of_dropped : ℚ
  pct_of_planned : ℚ
deriving Repr

/-- The `summary` sub-structure of a `WebhookResponseItem`. -/
structure WebhookSummary where
  total_trips : ℚ
  total_distance_km : ℚ
  avg_trip_distance_km : ℚ
  total_trip_hours : ℚ
  avg_trip_hours : ℚ
  total_consignments_planned : ℚ
  total_consignments_served : ℚ
  total_consignments_dropped : ℚ
  avg_stops_per_trip : ℚ
deriving Repr

/-- `WebhookResponseItem` from src/components/AnalysisPage.tsx. The `success`
flag is `Option Bool` because the source distinguishes the literal `false`
(`item.success === false`) from an absent flag; `summary` is optional because
the source checks `if (!summary) return null`; an absent `drop_breakup` is
read as `[]` (`item.drop_breakup || []`). The unused `trip_matrix` field
(typed `any[]` and never read by the engine) is omitted. -/
structure WebhookResponseItem where
  success : Option Bool
  request_id : String
  hub_code : String
  summary : Option WebhookSummary
  drop_breakup : List DropBreakupItem
deriving Repr

/-- One entry of `DetailedMetrics.dropReasons`. -/
structure DropReason where
  reason : String
  count : ℚ
deriving Repr, DecidableEq

/-- `DetailedMetrics` from src/components/AnalysisPage.tsx. -/
structure DetailedMetrics where
  id : String
  hub : String
  totalTrips : ℚ
  avgDistance : ℚ
  avgDistanceStr : String
  totalStops : ℚ
  avgConsignments : ℚ
  avgConsignmentsStr : String
  avgTripTimeStr : String
  totalDrops : ℚ
  dropSplit : ℚ
  dropSplitStr : String
  dropReasons : List DropReason
  isMock : Bool
deriving Repr

/-- `MOCK_RESPONSE_DATA` (src/components/AnalysisPage.tsx, lines 64-97), the
fixed simulated fallback payload. -/
def MOCK_RESPONSE_DATA : WebhookResponseItem :=
  { success := some true
    request_id := "IDBtest3"
    hub_code := "PALAK"
    summary := some
      { total_trips := 1
        total_distance_km := 0.06
        avg_trip_distance_km := 0.06
        total_trip_hours := 2.11
        avg_trip_hours := 2.11
        total_consignments_planned := 13
        total_consignments_served := 10
        total_consignments_dropped := 3
        avg_stops_per_trip := 10 }
    drop_breakup :=
      [{ reason_code := "WEIGHT_CONSTRAINT_BREACH"
         reason_label := "Insufficient weight"
         dropped_count := 3
         pct_of_dropped := 100
         pct_of_planned := 23.08 }] }

/-- `formatHoursToHHMM` (src/components/AnalysisPage.tsx, lines 112-117);
`none` models a `NaN` argument. -/
def formatHoursToHHMM (decimalHours : Option ℚ) : String :=
  match decimalHours with
  | none => "0h 0m"
  | some v =>
    let hrs : ℤ := ⌊v⌋
    let mins : ℤ := round ((v - hrs) * 60)
    toString hrs ++ "h " ++ toString mins ++ "m"

/-- The drop-reason sort `(a, b) => b.count - a.count`: stable descending by
count. -/
def sortByCountDesc (l : List DropReason) : List DropReason :=
  stableSortBy (fun a b => a.count > b.count) l

/-- The parsed JSON body of a successful response: either one structured
payload or an array of payloads (`Array.isArray(jsonResponse)` dispatch). -/
inductive JsonBody where
  | single (item : WebhookResponseItem)
  | array (items : List WebhookResponseItem)

/-- Outcome of the remote `fetch` for one scenario. `netError` is a rejected
fetch (network/CORS failure); `response ok body` is a settled HTTP response
with its `ok` flag, where `body = none` means `response.json()` threw (a
malformed body). -/
inductive FetchOutcome where
  | netError
  | response (ok : Bool) (body : Option JsonBody)

/-- The conditions under which the source's `try` block throws and control
reaches the fallback `catch`: transport failure, non-success HTTP status, or
a body that fails to parse. -/
def isFetchFailure : FetchOutcome → Bool
  | .netError => true
  | .response ok body => !ok || body.isNone

/-- `fetchScenarioData` (src/components/AnalysisPage.tsx, lines 120-196) as a
function of the fetch outcome: on any failure substitute
`MOCK_RESPONSE_DATA` with the requested id and mark the result simulated; an
explicit `success === false` from the live path (never from the mock) or a
missing item/summary yields no result; otherwise normalize the summary into a
`DetailedMetrics`. -/
def fetchScenarioData (scenarioName : String) (outcome : FetchOutcome) : Option DetailedMetrics :=
  let withMock : Option WebhookResponseItem × Bool :=
    (some { MOCK_RESPONSE_DATA with request_id := scenarioName }, true)
  let step : Option WebhookResponseItem × Bool :=
    match outcome with
    | .netError => withMock
    | .response ok body =>
      if !ok then withMock
      else match body with
        | none => withMock
        | some (.single item) => (some item, false)
        | some (.array items) => (items.head?, false)
  match step with
  | (none, _) => none
  | (some item, isMock) =>
    if item.success = some false ∧ isMock = false then none
    else match item.summary with
      | none => none
      | some summary =>
        let totalPlanned := jsOrQ summary.total_consignments_planned 1
        let dropSplit := summary.total_consignments_dropped / totalPlanned * 100
        some
          { id := jsOrStr item.request_id scenarioName
            hub := jsOrStr item.hub_code "N/A"
            totalTrips := jsOrQ summary.total_trips 0
            avgDistance := jsOrQ summary.avg_trip_distance_km 0
            avgDistanceStr := jsToFixed 2 (jsOrQ summary.avg_trip_distance_km 0)
            totalStops := jsOrQ summary.total_consignments_served 0
            avgConsignments := jsOrQ summary.avg_stops_per_trip 0
            avgConsignmentsStr := jsToFixed 1 (jsOrQ summary.avg_stops_per_trip 0)
            avgTripTimeStr := formatHoursToHHMM (some (jsOrQ summary.avg_trip_hours 0))
            totalDrops := jsOrQ summary.total_consignments_dropped 0
            dropSplit := dropSplit
            dropSplitStr := jsToFixed 1 dropSplit
            dropReasons := sortByCountDesc (item.drop_breakup.map
              (fun d => { reason := jsOrStr d.reason_label d.reason_code
                          count := d.dropped_count }))
            isMock := isMock }

/-- The error message thrown when a whole batch resolves to nothing
(src/components/AnalysisPage.tsx, line 213). -/
def unresolvableMsg : String := "Could not retrieve data. Please check Scenario Name."

/-- `executeSearch` (src/components/AnalysisPage.tsx, lines 199-227) as a
function of each scenario's fetch outcome. `none` models the early `return`
on an empty scenario list (no error state, no result); otherwise the batch
either fails with `unresolvableMsg` when every scenario resolved to nothing,
or succeeds with the surviving results in request order. -/
def executeSearch (scenarios : List (String × FetchOutcome)) :
    Option (Except String (List DetailedMetrics)) :=
  if scenarios.isEmpty then none
  else
    let validResults := scenarios.filterMap (fun p => fetchScenarioData p.1 p.2)
    if validResults.isEmpty then some (Except.error unresolvableMsg)
    else some (Except.ok validResults)

/-- The analysis mode of the page. -/
inductive AnalysisMode where
  | SINGLE
  | COMPARE
deriving DecidableEq

/-- `ComparisonExtrema`: the shape returned by `bestMetrics`. -/
structure ComparisonExtrema where
  minDistance : ℚ
  minDrops : ℚ
  minTrips : ℚ
  maxConsignments : ℚ
deriving Repr

/-- `Math.min(...)` over a mapped list; the empty case never arises under the
length guard in `bestMetrics` (JS would give `Infinity` there). -/
def listMinQ : List ℚ → ℚ
  | [] => 0
  | x :: xs => xs.foldl min x

/-- `Math.max(...)` over a mapped list; the empty case never arises under the
length guard in `bestMetrics`. -/
def listMaxQ : List ℚ → ℚ
  | [] => 0
  | x :: xs => xs.foldl max x

/-- `bestMetrics` (src/components/AnalysisPage.tsx, lines 278-286): `null`
unless at least two scenarios are loaded in compare mode; otherwise the
min/max extrema of the unrounded metric values. -/
def bestMetrics (mode : AnalysisMode) (metricsData : List DetailedMetrics) :
    Option ComparisonExtrema :=
  if metricsData.length < 2 ∨ mode ≠ .COMPARE then none
  else some
    { minDistance := listMinQ (metricsData.map (fun d => d.avgDistance))
      minDrops := listMinQ (metricsData.map (fun d => d.totalDrops))
      minTrips := listMinQ (metricsData.map (fun d => d.totalTrips))
      maxConsignments := listMaxQ (metricsData.map (fun d => d.avgConsignments)) }

/-- The rendering condition for the avg-distance "BEST" badge
(src/components/AnalysisPage.tsx, line 574):
`bestMetrics && s.avgDistance === bestMetrics.minDistance`. -/
def showsBestDistanceBadge (best : Option ComparisonExtrema) (s : DetailedMetrics) : Bool :=
  match best with
  | none => false
  | some e => s.avgDistance == e.minDistance

/-- The rendering condition for the total-trips "LOWEST" badge (line 557). -/
def showsBestTripsBadge (best : Option ComparisonExtrema) (s : DetailedMetrics) : Bool :=
  match best with
  | none => false
  | some e => s.totalTrips == e.minTrips

/-- The rendering condition for the total-drops "LOWEST" badge (line 623). -/
def showsBestDropsBadge (best : Option ComparisonExtrema) (s : DetailedMetrics) : Bool :=
  match best with
  | none => false
  | some e => s.totalDrops == e.minDrops

/-- The rendering condition for the avg-stops-per-trip "HIGHEST" badge
(line 591). -/
def showsBestConsignmentsBadge (best : Option ComparisonExtrema) (s : DetailedMetrics) : Bool :=
  match best with
  | none => false
  | some e => s.avgConsignments == e.maxConsignments

/-! ### Helper lemmas -/

theorem jsOrStr_self (a : String) : jsOrStr a a = a := by
  simp [jsOrStr]

theorem insertOrdered_perm (lt : α → α → Bool) (x : α) (l : List α) :
    (insertOrdered lt x l).Perm (x :: l) := by
  induction l with
  | nil => simp [insertOrdered]
  | cons y rest ih =>
    simp only [insertOrdered]
    by_cases h : lt x y = true
    · simp [h]
    · simp only [h, if_false]
      exact ((ih.cons y).trans (List.Perm.swap x y rest)).symm.symm

theorem stableSortBy_foldl_perm (lt : α → α → Bool) (l acc : List α) :
    (l.foldl (fun acc x => insertOrdered lt x acc) acc).Perm (l ++ acc) := by
  induction l generalizing acc with
  | nil => simp
  | cons x rest ih =>
    simp only [List.foldl_cons, List.cons_append]
    exact ((ih (insertOrdered lt x acc)).trans
      (List.Perm.append_left rest (insertOrdered_perm lt x acc))).trans
      List.perm_middle

theorem stableSortBy_perm (lt : α → α → Bool) (l : List α) :
    (stableSortBy lt l).Perm l := by
  simpa using stableSortBy_foldl_perm lt l []

theorem mem_stableSortBy (lt : α → α → Bool) (l : List α) (x : α) :
    x ∈ stableSortBy lt l ↔ x ∈ l :=
  (stableSortBy_perm lt l).mem_iff

theorem foldl_min_le_init (a : ℚ) (l : List ℚ) : l.foldl min a ≤ a := by
  induction l generalizing a with
  | nil => simp
  | cons b rest ih =>
    simp only [List.foldl_cons]
    exact le_trans (ih (min a b)) (min_le_left a b)

theorem foldl_min_le (a : ℚ) (l : List ℚ) : ∀ y ∈ l, l.foldl min a ≤ y := by
  induction l generalizing a with
  | nil => simp
  | cons b rest ih =>
    intro y hy
    rcases List.mem_cons.mp hy with rfl | hy
    · exact le_trans (foldl_min_le_init (min a y) rest) (min_le_right a y)
    · exact ih (min a b) y hy

theorem foldl_min_choice (a : ℚ) (l : List ℚ) :
    l.foldl min a = a ∨ l.foldl min a ∈ l := by
  induction l generalizing a with
  | nil => simp
  | cons b rest ih =>
    simp only [List.foldl_cons]
    rcases ih (min a b) with h | h
    · rcases min_choice a b with hab | hab
      · exact Or.inl (h.trans hab)
      · exact Or.inr (by rw [h, hab]; exact List.mem_cons_self b rest)
    · exact Or.inr (List.mem_cons_of_mem b h)

theorem listMinQ_le (l : List ℚ) (y : ℚ) (hy : y ∈ l) : listMinQ l ≤ y := by
  cases l with
  | nil => cases hy
  | cons x xs =>
    rcases List.mem_cons.mp hy with rfl | hy
    · exact foldl_min_le_init y xs
    · exact foldl_min_le x xs y hy

theorem listMinQ_mem (l : List ℚ) (hl : l ≠ []) : listMinQ l ∈ l := by
  cases l with
  | nil => exact absurd rfl hl
  | cons x xs =>
    rcases foldl_min_choice x xs with h | h
    · simp [listMinQ, h]
    · simp [listMinQ]
      exact Or.inr h

theorem foldl_max_init_le (a : ℚ) (l : List ℚ) : a ≤ l.foldl max a := by
  induction l generalizing a with
  | nil => simp
  | cons b rest ih =>
    simp only [List.foldl_cons]
    exact le_trans (le_max_left a b) (ih (max a b))

theorem foldl_max_le (a : ℚ) (l : List ℚ) : ∀ y ∈ l, y ≤ l.foldl max a := by
  induction l generalizing a with
  | nil => simp
  | cons b rest ih =>
    intro y hy
    rcases List.mem_cons.mp hy with rfl | hy
    · exact le_trans (le_max_right a y) (foldl_max_init_le (max a y) rest)
    · exact ih (max a b) y hy

theorem foldl_max_choice (a : ℚ) (l : List ℚ) :
    l.foldl max a = a ∨ l.foldl max a ∈ l := by
  induction l generalizing a with
  | nil => simp
  | cons b rest ih =>
    simp only [List.foldl_cons]
    rcases ih (max a b) with h | h
    · rcases max_choice a b with hab | hab
      · exact Or.inl (h.trans hab)
      · exact Or.inr (by rw [h, hab]; exact List.mem_cons_self b rest)
    · exact Or.inr (List.mem_cons_of_mem b h)

theorem le_listMaxQ (l : List ℚ) (y : ℚ) (hy : y ∈ l) : y ≤ listMaxQ l := by
  cases l with
  | nil => cases hy
  | cons x xs =>
    rcases List.mem_cons.mp hy with rfl | hy
    · exact foldl_max_init_le y xs
    · exact foldl_max_le x xs y hy

theorem listMaxQ_mem (l : List ℚ) (hl : l ≠ []) : listMaxQ l ∈ l := by
  cases l with
  | nil => exact absurd rfl hl
  | cons x xs =>
    rcases foldl_max_choice x xs with h | h
    · simp [listMaxQ, h]
    · simp [listMaxQ]
      exact Or.inr h

theorem buildRow_map_fst (hs vs : List String) : (buildRow hs vs).map Prod.fst = hs := by
  induction hs generalizing vs with
  | nil => rfl
  | cons h rest ih => simp [buildRow, ih]

theorem buildRow_length (hs vs : List String) : (buildRow hs vs).length = hs.length := by
  induction hs generalizing vs with
  | nil => rfl
  | cons h rest ih => simp [buildRow, ih]

theorem buildRow_getElem? (hs vs : List String) (i : ℕ) (hi : i < hs.length) :
    (buildRow hs vs)[i]? = some (hs.getD i "", vs.getD i "") := by
  induction hs generalizing vs i with
  | nil => cases hi
  | cons h rest ih =>
    cases i with
    | zero =>
      cases vs with
      | nil => simp [buildRow]
      | cons v vrest => simp [buildRow]
    | succ j =>
      have hj : j < rest.length := Nat.lt_of_succ_lt_succ hi
      cases vs with
      | nil => simpa [buildRow] using ih [] j hj
      | cons v vrest => simpa [buildRow] using ih vrest j hj

theorem jsToFixed_eval (digits : ℕ) (x : ℚ) (n : ℕ)
    (h : round (x * (10 : ℚ) ^ digits) = (n : ℤ)) :
    jsToFixed digits x =
      (if digits = 0 then toString n
       else toString (n / 10 ^ digits) ++ "." ++ padZeros digits (toString (n % 10 ^ digits))) := by
  have hn : ¬ ((n : ℤ) < 0) := not_lt.mpr (by positivity)
  simp [jsToFixed, h, hn]

/-- Shared evaluation of the simulated fallback result: for any requested
name, the mock path produces a `DetailedMetrics` whose id is the requested
name, which is tagged as simulated, whose drop reasons come from
`MOCK_RESPONSE_DATA`, and whose drop split lies in `[0, 100]`. -/
theorem fetchScenarioData_netError_props (name : String) :
    ∃ m, fetchScenarioData name .netError = some m ∧ m.id = name ∧ m.isMock = true ∧
      m.dropReasons = sortByCountDesc (MOCK_RESPONSE_DATA.drop_breakup.map
        (fun d => { reason := jsOrStr d.reason_label d.reason_code
                    count := d.dropped_count : DropReason })) ∧
      0 ≤ m.dropSplit ∧ m.dropSplit ≤ 100 := by
  refine ⟨_, rfl, ?_, rfl, rfl, ?_, ?_⟩
  · simp [jsOrStr]
  · norm_num [MOCK_RESPONSE_DATA, jsOrQ]
  · norm_num [MOCK_RESPONSE_DATA, jsOrQ]

/-- Every failing fetch outcome takes the same fallback path as a network
error. -/
theorem fetchScenarioData_failure_eq (name : String) (outcome : FetchOutcome)
    (h : isFetchFailure outcome = true) :
    fetchScenarioData name outcome = fetchScenarioData name .netError := by
  cases outcome with
  | netError => rfl
  | response ok body =>
    cases ok with
    | false => rfl
    | true =>
      cases body with
      | none => rfl
      | some b => simp [isFetchFailure] at h

/-! ### Claim theorems -/

/-- C1: for every scenario name, if the remote fetch fails in transport,
returns a non-success HTTP status, or yields a malformed response body, the
resilience wrapper returns a `DetailedMetrics` whose id equals the requested
name, whose `isMock` flag is true, and whose drop reasons are taken from the
fixed fallback payload. -/
theorem fetchScenarioData_fallback (name : String) (outcome : FetchOutcome)
    (h : isFetchFailure outcome = true) :
    ∃ m, fetchScenarioData name outcome = some m ∧ m.id = name ∧ m.isMock = true ∧
      m.dropReasons = sortByCountDesc (MOCK_RESPONSE_DATA.drop_breakup.map
        (fun d => { reason := jsOrStr d.reason_label d.reason_code
                    count := d.dropped_count : DropReason })) := by
  obtain ⟨m, hm, hid, hmock, hdr, -, -⟩ := fetchScenarioData_netError_props name
  exact ⟨m, (fetchScenarioData_failure_eq name outcome h).trans hm, hid, hmock, hdr⟩

/-- Witness for C1 at the concrete scenario name "X" and a transport
failure. -/
theorem fetchScenarioData_fallback_witness :
    isFetchFailure .netError = true ∧
    (∃ m, fetchScenarioData "X" .netError = some m ∧ m.id = "X" ∧ m.isMock = true ∧
      m.dropReasons = sortByCountDesc (MOCK_RESPONSE_DATA.drop_breakup.map
        (fun d => { reason := jsOrStr d.reason_label d.reason_code
                    count := d.dropped_count : DropReason }))) :=
  ⟨rfl, fetchScenarioData_fallback "X" .netError rfl⟩

/-- C5: a remote call that succeeds but whose payload carries an explicit
`success = false` flag yields no `DetailedMetrics`: the scenario is excluded,
not substituted with the fallback. Covers both a single payload and an array
whose first element carries the flag. -/
theorem fetchScenarioData_explicitFailure (name : String) (item : WebhookResponseItem)
    (h : item.success = some false) :
    fetchScenarioData name (.response true (some (.single item))) = none ∧
    ∀ rest, fetchScenarioData name (.response true (some (.array (item :: rest)))) = none := by
  constructor
  · simp [fetchScenarioData, h]
  · intro rest
    simp [fetchScenarioData, h]

/-- Witness for C5: a concrete payload with `success = false`. -/
def failItem : WebhookResponseItem :=
  { success := some false
    request_id := "IDBtest9"
    hub_code := "HUB9"
    summary := MOCK_RESPONSE_DATA.summary
    drop_breakup := [] }

/-- Witness for C5 at the concrete payload `failItem`. -/
theorem fetchScenarioData_explicitFailure_witness :
    failItem.success = some false ∧
    fetchScenarioData "IDBtest9" (.response true (some (.single failItem))) = none :=
  ⟨rfl, (fetchScenarioData_explicitFailure "IDBtest9" failItem rfl).1⟩

/-- C10: a remote call that succeeds with a body parsing to an empty JSON
array yields no `DetailedMetrics` — the scenario is silently excluded, not
substituted with the simulated fallback. -/
theorem fetchScenarioData_emptyArray (name : String) :
    fetchScenarioData name (.response true (some (.array []))) = none := rfl

/-- C9: the duration formatter returns floor hours and rounded minutes, maps
a NaN input to "0h 0m", and formats 2.11 decimal hours as "2h 7m". -/
theorem formatHoursToHHMM_spec (v : ℚ) :
    formatHoursToHHMM none = "0h 0m" ∧
    formatHoursToHHMM (some v) =
      toString ⌊v⌋ ++ "h " ++ toString (round ((v - ⌊v⌋) * 60)) ++ "m" ∧
    formatHoursToHHMM (some (2.11 : ℚ)) = "2h 7m" := by
  refine ⟨rfl, rfl, ?_⟩
  have h1 : (⌊(2.11 : ℚ)⌋ : ℤ) = 2 := by norm_num
  have h2 : round (((2.11 : ℚ) - ((2 : ℤ) : ℚ)) * 60) = 7 := by norm_num [round_eq]
  simp only [formatHoursToHHMM, h1, h2]
  rfl

/-- Shared evaluation of the live path: a successful single-payload response
whose `success` flag is not the literal `false` and which carries a summary
normalizes into the canonical `DetailedMetrics`. -/
theorem fetchScenarioData_okSingle_eval (name : String) (item : WebhookResponseItem)
    (s : WebhookSummary) (hs : item.summary = some s) (hsucc : item.success ≠ some false) :
    fetchScenarioData name (.response true (some (.single item))) = some
      { id := jsOrStr item.request_id name
        hub := jsOrStr item.hub_code "N/A"
        totalTrips := jsOrQ s.total_trips 0
        avgDistance := jsOrQ s.avg_trip_distance_km 0
        avgDistanceStr := jsToFixed 2 (jsOrQ s.avg_trip_distance_km 0)
        totalStops := jsOrQ s.total_consignments_served 0
        avgConsignments := jsOrQ s.avg_stops_per_trip 0
        avgConsignmentsStr := jsToFixed 1 (jsOrQ s.avg_stops_per_trip 0)
        avgTripTimeStr := formatHoursToHHMM (some (jsOrQ s.avg_trip_hours 0))
        totalDrops := jsOrQ s.total_consignments_dropped 0
        dropSplit := s.total_consignments_dropped / jsOrQ s.total_consignments_planned 1 * 100
        dropSplitStr := jsToFixed 1
          (s.total_consignments_dropped / jsOrQ s.total_consignments_planned 1 * 100)
        dropReasons := sortByCountDesc (item.drop_breakup.map
          (fun d => { reason := jsOrStr d.reason_label d.reason_code
                      count := d.dropped_count : DropReason }))
        isMock := false } := by
  simp [fetchScenarioData, hs, hsucc]

/-- A well-formed payload the normalizer accepts whose dropped count exceeds
its planned count. -/
def overdroppedItem : WebhookResponseItem :=
  { success := some true
    request_id := "OVR1"
    hub_code := "HUB1"
    summary := some
      { total_trips := 1
        total_distance_km := 1
        avg_trip_distance_km := 1
        total_trip_hours := 1
        avg_trip_hours := 1
        total_consignments_planned := 1
        total_consignments_served := 0
        total_consignments_dropped := 2
        avg_stops_per_trip := 1 }
    drop_breakup := [] }

/-- C2 counterexample: the summary normalizer accepts a payload with
planned = 1 and dropped = 2 and computes a drop split of 200, which is not in
[0, 100] — so the drop split is not bounded by 100 for every accepted
payload. -/
theorem dropSplit_out_of_range_cex :
    (fetchScenarioData "OVR1" (.response true (some (.single overdroppedItem)))).map
      (fun m => m.dropSplit) = some 200 ∧ ¬ ((200 : ℚ) ≤ 100) := by
  constructor
  · rw [fetchScenarioData_okSingle_eval "OVR1" overdroppedItem _ rfl
      (by simp [overdroppedItem])]
    simp [overdroppedItem]
    norm_num [jsOrQ]
  · norm_num

/-- C2 (amended): for every accepted payload whose dropped and planned counts
are naturals with dropped ≤ max(planned, 1), the computed full-precision drop
split lies in [0, 100]; the fixed fallback payload satisfies the same
bounds. -/
theorem dropSplit_in_range (name : String) (item : WebhookResponseItem)
    (s : WebhookSummary) (d p : ℕ)
    (hs : item.summary = some s)
    (hsucc : item.success ≠ some false)
    (hd : s.total_consignments_dropped = (d : ℚ))
    (hp : s.total_consignments_planned = (p : ℚ))
    (hdp : d ≤ max p 1) :
    (∃ m, fetchScenarioData name (.response true (some (.single item))) = some m ∧
      0 ≤ m.dropSplit ∧ m.dropSplit ≤ 100) ∧
    (∃ mf, fetchScenarioData name .netError = some mf ∧
      0 ≤ mf.dropSplit ∧ mf.dropSplit ≤ 100) := by
  constructor
  · refine ⟨_, fetchScenarioData_okSingle_eval name item s hs hsucc, ?_, ?_⟩
    · dsimp only
      rw [hd, hp]
      cases p with
      | zero =>
        simp only [Nat.cast_zero, jsOrQ, if_pos rfl]
        positivity
      | succ q =>
        have hq : (((q + 1 : ℕ)) : ℚ) ≠ 0 := Nat.cast_ne_zero.mpr (Nat.succ_ne_zero q)
        simp only [jsOrQ, if_neg hq]
        positivity
    · dsimp only
      rw [hd, hp]
      cases p with
      | zero =>
        have hd1 : d ≤ 1 := by simpa using hdp
        simp [jsOrQ]
        omega
      | succ q =>
        have hq : (((q + 1 : ℕ)) : ℚ) ≠ 0 := Nat.cast_ne_zero.mpr (Nat.succ_ne_zero q)
        have hpos : (0 : ℚ) < ((q + 1 : ℕ) : ℚ) := by positivity
        have hdq : (d : ℚ) ≤ ((q + 1 : ℕ) : ℚ) := by
          exact_mod_cast (by simpa using hdp : d ≤ q + 1)
        simp only [jsOrQ, if_neg hq]
        rw [div_mul_eq_mul_div, div_le_iff₀ hpos]
        nlinarith
  · obtain ⟨mf, hmf, -, -, -, hlo, hhi⟩ := fetchScenarioData_netError_props name
    exact ⟨mf, hmf, hlo, hhi⟩

/-- A concrete accepted payload with planned = 4 and dropped = 2. -/
def inRangeItem : WebhookResponseItem :=
  { success := some true
    request_id := "INR1"
    hub_code := "HUB2"
    summary := some
      { total_trips := 2
        total_distance_km := 8
        avg_trip_distance_km := 4
        total_trip_hours := 3
        avg_trip_hours := 1.5
        total_consignments_planned := 4
        total_consignments_served := 2
        total_consignments_dropped := 2
        avg_stops_per_trip := 1 }
    drop_breakup := [] }

/-- Witness for the amended C2 at the concrete payload `inRangeItem`. -/
theorem dropSplit_in_range_witness :
    (2 : ℕ) ≤ max 4 1 ∧
    (∃ m, fetchScenarioData "INR1" (.response true (some (.single inRangeItem))) = some m ∧
      0 ≤ m.dropSplit ∧ m.dropSplit ≤ 100) := by
  refine ⟨by decide, ?_⟩
  exact (dropSplit_in_range "INR1" inRangeItem _ 2 4 rfl (by simp [inRangeItem])
    (by norm_num [inRangeItem]) (by norm_num [inRangeItem]) (by decide)).1

/-- C3: for every accepted payload with natural dropped count d and planned
count p, the normalizer computes the drop split as d / max(p, 1) scaled to
percent, and planned = 13 with dropped = 3 displays as "23.1". -/
theorem dropSplit_formula (name : String) (item : WebhookResponseItem)
    (s : WebhookSummary) (d p : ℕ)
    (hs : item.summary = some s)
    (hsucc : item.success ≠ some false)
    (hd : s.total_consignments_dropped = (d : ℚ))
    (hp : s.total_consignments_planned = (p : ℚ)) :
    ∃ m, fetchScenarioData name (.response true (some (.single item))) = some m ∧
      m.dropSplit = (d : ℚ) / max (p : ℚ) 1 * 100 ∧
      (d = 3 → p = 13 → m.dropSplitStr = "23.1") := by
  refine ⟨_, fetchScenarioData_okSingle_eval name item s hs hsucc, ?_, ?_⟩
  · dsimp only
    rw [hd, hp]
    cases p with
    | zero => simp [jsOrQ]
    | succ q =>
      have hq : (((q + 1 : ℕ)) : ℚ) ≠ 0 := Nat.cast_ne_zero.mpr (Nat.succ_ne_zero q)
      have h1 : (1 : ℚ) ≤ ((q + 1 : ℕ) : ℚ) := by exact_mod_cast Nat.succ_le_succ (Nat.zero_le q)
      simp only [jsOrQ, if_neg hq]
      rw [max_eq_left h1]
  · rintro rfl rfl
    dsimp only
    rw [hd, hp]
    have hr : round (((3 : ℕ) : ℚ) / jsOrQ ((13 : ℕ) : ℚ) 1 * 100 * (10 : ℚ) ^ (1 : ℕ)) =
        ((231 : ℕ) : ℤ) := by
      norm_num [jsOrQ, round_eq]
    rw [jsToFixed_eval 1 _ 231 hr]
    rfl

/-- A concrete accepted payload with planned = 13 and dropped = 3. -/
def formulaItem : WebhookResponseItem :=
  { success := some true
    request_id := "FRM1"
    hub_code := "HUB3"
    summary := some
      { total_trips := 1
        total_distance_km := 5
        avg_trip_distance_km := 5
        total_trip_hours := 2
        avg_trip_hours := 2
        total_consignments_planned := 13
        total_consignments_served := 10
        total_consignments_dropped := 3
        avg_stops_per_trip := 10 }
    drop_breakup := [] }

/-- Witness for C3 at the concrete payload `formulaItem`. -/
theorem dropSplit_formula_witness :
    ∃ m, fetchScenarioData "FRM1" (.response true (some (.single formulaItem))) = some m ∧
      m.dropSplit = ((3 : ℕ) : ℚ) / max ((13 : ℕ) : ℚ) 1 * 100 ∧ m.dropSplitStr = "23.1" := by
  obtain ⟨m, hm, hf, hstr⟩ := dropSplit_formula "FRM1" formulaItem _ 3 13 rfl
    (by simp [formulaItem]) (by norm_num [formulaItem]) (by norm_num [formulaItem])
  exact ⟨m, hm, hf, hstr rfl rfl⟩

/-- When every scenario of a batch hits a transport failure, every scenario
survives the filter with a simulated result. -/
theorem filterMap_netError_full (scenarios : List (String × FetchOutcome))
    (hall : ∀ p ∈ scenarios, p.2 = FetchOutcome.netError) :
    (scenarios.filterMap (fun p => fetchScenarioData p.1 p.2)).length = scenarios.length ∧
    ∀ r ∈ scenarios.filterMap (fun p => fetchScenarioData p.1 p.2), r.isMock = true := by
  induction scenarios with
  | nil => simp
  | cons hd tl ih =>
    have hhd : hd.2 = FetchOutcome.netError := hall hd (List.mem_cons_self hd tl)
    obtain ⟨m, hm, -, hmock, -, -, -⟩ := fetchScenarioData_netError_props hd.1
    obtain ⟨ihlen, ihmock⟩ := ih (fun p hp => hall p (List.mem_cons_of_mem hd hp))
    constructor
    · simp [List.filterMap_cons, hhd, hm, ihlen]
    · intro r hr
      simp only [List.filterMap_cons, hhd, hm] at hr
      rcases List.mem_cons.mp hr with rfl | hr2
      · exact hmock
      · exact ihmock r hr2

/-- C4 counterexample: on the empty batch the search performs its early
return — it neither fails with the unresolvable-scenario error nor produces a
result, although zero scenarios produced a `DetailedMetrics`, so the claimed
"if and only if" fails for the empty batch. -/
theorem executeSearch_empty_cex :
    executeSearch [] = none ∧ executeSearch [] ≠ some (Except.error unresolvableMsg) := by
  refine ⟨rfl, ?_⟩
  simp [executeSearch]

/-- C4 (amended): for every non-empty batch, the resolution fails with the
unresolvable-scenario error iff zero scenarios produced a `DetailedMetrics`;
a batch with at least one resolved scenario succeeds with exactly the
surviving results; and a batch in which every remote call fails in transport
yields a full-length result set of simulated entries. -/
theorem executeSearch_batch (scenarios : List (String × FetchOutcome))
    (hne : scenarios ≠ []) :
    (executeSearch scenarios = some (Except.error unresolvableMsg) ↔
      scenarios.filterMap (fun p => fetchScenarioData p.1 p.2) = []) ∧
    (scenarios.filterMap (fun p => fetchScenarioData p.1 p.2) ≠ [] →
      executeSearch scenarios =
        some (Except.ok (scenarios.filterMap (fun p => fetchScenarioData p.1 p.2)))) ∧
    ((∀ p ∈ scenarios, p.2 = FetchOutcome.netError) →
      ∃ rs, executeSearch scenarios = some (Except.ok rs) ∧
        rs.length = scenarios.length ∧ ∀ r ∈ rs, r.isMock = true) := by
  have hbe : scenarios.isEmpty = false := by
    cases scenarios with
    | nil => exact absurd rfl hne
    | cons a l => rfl
  refine ⟨?_, ?_, ?_⟩
  · by_cases hv : scenarios.filterMap (fun p => fetchScenarioData p.1 p.2) = []
    · simp [executeSearch, hbe, hv]
    · simp [executeSearch, hbe, hv]
  · intro hv
    simp [executeSearch, hbe, hv]
  · intro hall
    obtain ⟨hlen, hmock⟩ := filterMap_netError_full scenarios hall
    have hv : scenarios.filterMap (fun p => fetchScenarioData p.1 p.2) ≠ [] := by
      intro h0
      rw [h0] at hlen
      cases scenarios with
      | nil => exact hne rfl
      | cons a l => simp at hlen
    refine ⟨_, ?_, hlen, hmock⟩
    simp [executeSearch, hbe, hv]

/-- Witness for the amended C4: a two-scenario batch in which both remote
calls fail in transport succeeds with two simulated entries. -/
theorem executeSearch_batch_witness :
    [("A", FetchOutcome.netError), ("B", FetchOutcome.netError)] ≠
      ([] : List (String × FetchOutcome)) ∧
    ∃ rs, executeSearch [("A", FetchOutcome.netError), ("B", FetchOutcome.netError)] =
        some (Except.ok rs) ∧ rs.length = 2 ∧ ∀ r ∈ rs, r.isMock = true := by
  refine ⟨by simp, ?_⟩
  obtain ⟨rs, h1, h2, h3⟩ :=
    (executeSearch_batch [("A", FetchOutcome.netError), ("B", FetchOutcome.netError)]
      (by simp)).2.2 (by simp)
  exact ⟨rs, h1, by simpa using h2, h3⟩

/-- C6: with fewer than two loaded scenarios no comparison extrema are
produced; with two or more (in compare mode) the extrema are the minimum
unrounded average distance, total drops and trip count and the maximum
unrounded average stops-per-trip over the batch — each extremum is attained —
and a scenario shows the corresponding "best" badge exactly when its
unrounded value equals the extremum. -/
theorem bestMetrics_spec (mode : AnalysisMode) (md : List DetailedMetrics) :
    (md.length < 2 → bestMetrics mode md = none) ∧
    (2 ≤ md.length → mode = AnalysisMode.COMPARE →
      ∃ e, bestMetrics mode md = some e ∧
        (∀ s ∈ md, e.minDistance ≤ s.avgDistance ∧ e.minDrops ≤ s.totalDrops ∧
          e.minTrips ≤ s.totalTrips ∧ s.avgConsignments ≤ e.maxConsignments) ∧
        (∃ s ∈ md, s.avgDistance = e.minDistance) ∧
        (∃ s ∈ md, s.totalDrops = e.minDrops) ∧
        (∃ s ∈ md, s.totalTrips = e.minTrips) ∧
        (∃ s ∈ md, s.avgConsignments = e.maxConsignments) ∧
        (∀ s ∈ md,
          (showsBestDistanceBadge (bestMetrics mode md) s = true ↔
            s.avgDistance = e.minDistance) ∧
          (showsBestDropsBadge (bestMetrics mode md) s = true ↔
            s.totalDrops = e.minDrops) ∧
          (showsBestTripsBadge (bestMetrics mode md) s = true ↔
            s.totalTrips = e.minTrips) ∧
          (showsBestConsignmentsBadge (bestMetrics mode md) s = true ↔
            s.avgConsignments = e.maxConsignments))) := by
  constructor
  · intro h
    simp [bestMetrics, h]
  · intro hlen hmode
    have hne : md ≠ [] := by
      intro h0
      rw [h0] at hlen
      simp at hlen
    have hcond : ¬ (md.length < 2 ∨ mode ≠ AnalysisMode.COMPARE) :=
      not_or.mpr ⟨not_lt.mpr hlen, by simp [hmode]⟩
    have hb : bestMetrics mode md = some
        { minDistance := listMinQ (md.map (fun d => d.avgDistance))
          minDrops := listMinQ (md.map (fun d => d.totalDrops))
          minTrips := listMinQ (md.map (fun d => d.totalTrips))
          maxConsignments := listMaxQ (md.map (fun d => d.avgConsignments)) } := by
      rw [bestMetrics, if_neg hcond]
    refine ⟨_, hb, ?_, ?_, ?_, ?_, ?_, ?_⟩
    · intro s hs
      exact ⟨listMinQ_le _ _ (List.mem_map_of_mem _ hs),
        listMinQ_le _ _ (List.mem_map_of_mem _ hs),
        listMinQ_le _ _ (List.mem_map_of_mem _ hs),
        le_listMaxQ _ _ (List.mem_map_of_mem _ hs)⟩
    · obtain ⟨s, hsmem, hseq⟩ := List.mem_map.mp
        (listMinQ_mem (md.map (fun d => d.avgDistance)) (by simpa using hne))
      exact ⟨s, hsmem, hseq⟩
    · obtain ⟨s, hsmem, hseq⟩ := List.mem_map.mp
        (listMinQ_mem (md.map (fun d => d.totalDrops)) (by simpa using hne))
      exact ⟨s, hsmem, hseq⟩
    · obtain ⟨s, hsmem, hseq⟩ := List.mem_map.mp
        (listMinQ_mem (md.map (fun d => d.totalTrips)) (by simpa using hne))
      exact ⟨s, hsmem, hseq⟩
    · obtain ⟨s, hsmem, hseq⟩ := List.mem_map.mp
        (listMaxQ_mem (md.map (fun d => d.avgConsignments)) (by simpa using hne))
      exact ⟨s, hsmem, hseq⟩
    · intro s hs
      rw [hb]
      refine ⟨?_, ?_, ?_, ?_⟩ <;>
        simp [showsBestDistanceBadge, showsBestDropsBadge, showsBestTripsBadge,
          showsBestConsignmentsBadge]

/-- A fixed comparison scenario with average distance 5. -/
def cmpA : DetailedMetrics :=
  { id := "A"
    hub := "H"
    totalTrips := 1
    avgDistance := 5
    avgDistanceStr := "5.00"
    totalStops := 0
    avgConsignments := 1
    avgConsignmentsStr := "1.0"
    avgTripTimeStr := "0h 0m"
    totalDrops := 0
    dropSplit := 0
    dropSplitStr := "0.0"
    dropReasons := []
    isMock := false }

/-- A fixed comparison scenario with average distance 3.2. -/
def cmpB : DetailedMetrics := { cmpA with id := "B", avgDistance := 3.2 }

/-- Another fixed comparison scenario with average distance 3.2. -/
def cmpC : DetailedMetrics := { cmpA with id := "C", avgDistance := 3.2 }

/-- Witness for C6: over average distances [5.0, 3.2, 3.2] the minimum is 3.2
and both 3.2-valued scenarios (and only they) show the best badge. -/
theorem bestMetrics_spec_witness :
    (∃ e, bestMetrics AnalysisMode.COMPARE [cmpA, cmpB, cmpC] = some e ∧
      (∀ s ∈ [cmpA, cmpB, cmpC], e.minDistance ≤ s.avgDistance) ∧
      (∃ s ∈ [cmpA, cmpB, cmpC], s.avgDistance = e.minDistance) ∧
      e.minDistance = 3.2) ∧
    showsBestDistanceBadge (bestMetrics AnalysisMode.COMPARE [cmpA, cmpB, cmpC]) cmpB = true ∧
    showsBestDistanceBadge (bestMetrics AnalysisMode.COMPARE [cmpA, cmpB, cmpC]) cmpC = true ∧
    showsBestDistanceBadge (bestMetrics AnalysisMode.COMPARE [cmpA, cmpB, cmpC]) cmpA = false := by
  obtain ⟨e, he, hle, hexd, -, -, -, hbadges⟩ :=
    (bestMetrics_spec AnalysisMode.COMPARE [cmpA, cmpB, cmpC]).2 (by simp) rfl
  have hb : bestMetrics AnalysisMode.COMPARE [cmpA, cmpB, cmpC] = some
      { minDistance := 3.2, minDrops := 0, minTrips := 1, maxConsignments := 1 } := by
    simp [bestMetrics, listMinQ, listMaxQ, cmpA, cmpB, cmpC]
    norm_num [min_def, max_def]
  have heq : e = { minDistance := 3.2, minDrops := 0, minTrips := 1, maxConsignments := 1 } :=
    Option.some.inj (he.symm.trans hb)
  have hmind : e.minDistance = 3.2 := by rw [heq]
  refine ⟨⟨e, he, fun s hs => (hle s hs).1, hexd, hmind⟩, ?_, ?_, ?_⟩
  · exact (hbadges cmpB (by simp)).1.mpr (by rw [hmind]; norm_num [cmpB, cmpA])
  · exact (hbadges cmpC (by simp)).1.mpr (by rw [hmind]; norm_num [cmpC, cmpA])
  · rw [Bool.eq_false_iff]
    intro hbt
    have h5 := (hbadges cmpA (by simp)).1.mp hbt
    rw [hmind] at h5
    norm_num [cmpA] at h5

/-- C7: when the first surviving line declares the field names and R further
surviving lines remain, the parser returns exactly R records; each record
binds exactly the declared field names in order, a missing trailing value
becomes the empty string, and values beyond the declared fields are
dropped. -/
theorem parseCSV_records (text : String) (first : List Char) (rest : List (List Char))
    (h : survivingLines text = first :: rest) :
    (parseCSV text).headers = parseLine first ∧
    (parseCSV text).rows.length = rest.length ∧
    (parseCSV text).rows = rest.map (fun line => buildRow (parseLine first) (parseLine line)) ∧
    (∀ row ∈ (parseCSV text).rows, row.map Prod.fst = parseLine first) ∧
    (∀ (hs vs : List String), (buildRow hs vs).length = hs.length) ∧
    (∀ (hs vs : List String) (i : ℕ), i < hs.length →
      (buildRow hs vs)[i]? = some (hs.getD i "", vs.getD i "")) := by
  have hp : parseCSV text =
      ⟨parseLine first, rest.map (fun line => buildRow (parseLine first) (parseLine line))⟩ := by
    unfold parseCSV
    rw [h]
  refine ⟨by rw [hp], by rw [hp]; simp, by rw [hp], ?_, buildRow_length, ?_⟩
  · intro row hrow
    rw [hp] at hrow
    simp only [List.mem_map] at hrow
    obtain ⟨line, -, rfl⟩ := hrow
    exact buildRow_map_fst _ _
  · intro hs vs i hi
    exact buildRow_getElem? hs vs i hi

/-- A concrete tabular input: three declared fields, one ragged row and one
row with an extra value. -/
def csvText : String := "a,b,c\nx,y\np,q,r,s"

/-- Witness for C7 at `csvText`: two records, the ragged row filled with an
empty string and the extra value dropped. -/
theorem parseCSV_records_witness :
    survivingLines csvText = ["a,b,c".data, "x,y".data, "p,q,r,s".data] ∧
    (parseCSV csvText).rows.length = ["x,y".data, "p,q,r,s".data].length ∧
    (parseCSV csvText).rows =
      [[("a", "x"), ("b", "y"), ("c", "")], [("a", "p"), ("b", "q"), ("c", "r")]] := by
  have hsl : survivingLines csvText = ["a,b,c".data, "x,y".data, "p,q,r,s".data] := by decide
  exact ⟨hsl,
    (parseCSV_records csvText "a,b,c".data ["x,y".data, "p,q,r,s".data] hsl).2.1,
    by decide⟩

/-- C8: every scenario group the aggregator emits reports, as its average
stops and average distance, the arithmetic means over identified vehicles of
the per-vehicle stop counts and distance sums, formatted with `toFixed(1)`
and `toFixed(2)`; a group with no identified vehicle reports the literal
string "0" for both, never NaN. -/
theorem scenarioMetrics_averages (data : List SheetRow) (cur : Option String)
    (ms : List ScenarioMetrics) (m : ScenarioMetrics)
    (hms : scenarioMetrics data cur = some ms) (hm : m ∈ ms) :
    ∃ g ∈ groupScenarios data, m = mkScenarioMetrics cur g.1 g.2 ∧
      ((vehicleStats g.2).length = 0 → m.avgStops = "0" ∧ m.avgDistance = "0") ∧
      (0 < (vehicleStats g.2).length →
        m.avgStops = jsToFixed 1
          (((((vehicleStats g.2).map (fun p => p.2.stops)).sum : ℕ) : ℚ) /
            (((vehicleStats g.2).length : ℕ) : ℚ)) ∧
        m.avgDistance = jsToFixed 2
          (((vehicleStats g.2).map (fun p => p.2.distance)).sum /
            (((vehicleStats g.2).length : ℕ) : ℚ))) := by
  by_cases hde : data.isEmpty = true
  · rw [scenarioMetrics, if_pos hde] at hms
    cases hms
  · rw [scenarioMetrics, if_neg hde] at hms
    have hms' : ms = stableSortBy (fun a b => a.isCurrent && !b.isCurrent)
        ((groupScenarios data).map (fun g => mkScenarioMetrics cur g.1 g.2)) :=
      (Option.some.inj hms).symm
    rw [hms', mem_stableSortBy] at hm
    obtain ⟨g, hg, rfl⟩ := List.mem_map.mp hm
    refine ⟨g, hg, rfl, ?_, ?_⟩
    · intro h0
      simp [mkScenarioMetrics, h0]
    · intro hpos
      constructor
      · simp [mkScenarioMetrics, hpos]
      · simp [mkScenarioMetrics, hpos]

/-- A sheet row of scenario S1: vehicle V1, qualifying type, distance 10. -/
def aggRow1 : SheetRow :=
  [("request_id", "S1"), ("hub_code", "HUB"), ("vehicle_code", "V1"),
   ("type", "Delivery"), ("travel_distance_km", "10")]

/-- A sheet row of scenario S1: vehicle V2, qualifying type, distance 20. -/
def aggRow2 : SheetRow :=
  [("request_id", "S1"), ("hub_code", "HUB"), ("vehicle_code", "V2"),
   ("type", "pickup"), ("travel_distance_km", "20")]

/-- A sheet row of scenario S2 with no vehicle identifier. -/
def aggRow3 : SheetRow :=
  [("request_id", "S2"), ("hub_code", "HUB"), ("type", "delivery"),
   ("travel_distance_km", "5")]

/-- The concrete sheet data for the aggregator witness. -/
def aggRows : List SheetRow := [aggRow1, aggRow2, aggRow3]

/-- Expected metrics of scenario S1: two vehicles with distances 10 and 20
and one qualifying stop each. -/
def s1Metrics : ScenarioMetrics :=
  { id := "S1", hub := "HUB", totalVehicles := 2, totalTrips := 2,
    avgStops := "1.0", avgDistance := "15.00", isCurrent := false }

/-- Expected metrics of scenario S2: no identified vehicle. -/
def s2Metrics : ScenarioMetrics :=
  { id := "S2", hub := "HUB", totalVehicles := 0, totalTrips := 0,
    avgStops := "0", avgDistance := "0", isCurrent := false }

/-- The aggregator on the concrete sheet data. -/
theorem scenarioMetrics_aggRows_eval :
    scenarioMetrics aggRows none = some [s1Metrics, s2Metrics] := by
  have hvs : vehicleStats [aggRow1, aggRow2] =
      [("V1", { distance := (0 : ℚ) + ((10 : ℕ) : ℚ), stops := 0 + 1 }),
       ("V2", { distance := (0 : ℚ) + ((20 : ℕ) : ℚ), stops := 0 + 1 })] := rfl
  have hfix1 : jsToFixed 1 (1 : ℚ) = "1.0" := by
    rw [jsToFixed_eval 1 1 10 (by norm_num [round_eq])]
    rfl
  have hfix2 : jsToFixed 2 (15 : ℚ) = "15.00" := by
    rw [jsToFixed_eval 2 15 1500 (by norm_num [round_eq])]
    rfl
  have hmk1 : mkScenarioMetrics none "S1" [aggRow1, aggRow2] = s1Metrics := by
    simp only [mkScenarioMetrics, hvs, s1Metrics, ScenarioMetrics.mk.injEq]
    norm_num
    exact ⟨by decide, hfix1, hfix2⟩
  have hmk2 : mkScenarioMetrics none "S2" [aggRow3] = s2Metrics := rfl
  have hgroups : groupScenarios aggRows = [("S1", [aggRow1, aggRow2]), ("S2", [aggRow3])] := by
    decide
  rw [scenarioMetrics, if_neg (by decide), hgroups]
  simp only [List.map_cons, List.map_nil]
  rw [hmk1, hmk2]
  decide

/-- Witness for C8: on the concrete sheet data, scenario S1 (vehicles with
distances 10 and 20 and one qualifying stop each) reports "15.00" and "1.0",
and scenario S2 (no identified vehicle) reports "0" for both averages. -/
theorem scenarioMetrics_averages_witness :
    (scenarioMetrics aggRows none = some [s1Metrics, s2Metrics] ∧
      s1Metrics.avgDistance = "15.00" ∧ s1Metrics.avgStops = "1.0" ∧
      s2Metrics.avgDistance = "0" ∧ s2Metrics.avgStops = "0") ∧
    (∃ g ∈ groupScenarios aggRows, s1Metrics = mkScenarioMetrics none g.1 g.2 ∧
      ((vehicleStats g.2).length = 0 →
        s1Metrics.avgStops = "0" ∧ s1Metrics.avgDistance = "0") ∧
      (0 < (vehicleStats g.2).length →
        s1Metrics.avgStops = jsToFixed 1
          (((((vehicleStats g.2).map (fun p => p.2.stops)).sum : ℕ) : ℚ) /
            (((vehicleStats g.2).length : ℕ) : ℚ)) ∧
        s1Metrics.avgDistance = jsToFixed 2
          (((vehicleStats g.2).map (fun p => p.2.distance)).sum /
            (((vehicleStats g.2).length : ℕ) : ℚ)))) :=
  ⟨⟨scenarioMetrics_aggRows_eval, rfl, rfl, rfl, rfl⟩,
    scenarioMetrics_averages aggRows none [s1Metrics, s2Metrics] s1Metrics
      scenarioMetrics_aggRows_eval (List.mem_cons_self _ _)⟩
